import Mathlib

/-!
Verification of the Attendance application (browser-based face-recognition
attendance system).  The definitions below are a shallow embedding of the
JavaScript sources:

* `FaceStorage`  — the local IndexedDB descriptor store (face-storage.js);
* `CloudStorage` — the Firebase descriptor store (cloud-storage.js);
* the attendance reconciliation and session-gate logic of
  `FaceRecognitionSystem` (face-recognition.js): date validation,
  attendance marking with cooldown, matcher construction, QR-session
  validation, the dynamic-code second factor, and the day-change
  re-entrancy guard;
* the leave-management workflow (leave.js).

Asynchronous storage calls are modelled by explicit state passing; the
stores are association lists keyed by `id`.  Remote lookups that can throw
are modelled with `Except`; `Option` models JavaScript `null`/`undefined`.
Face descriptors are opaque numeric vectors; no claim computes with their
entries, so they are carried as `List Int`.
-/

/-- A face descriptor: an opaque fixed-length numeric embedding vector. -/
abbrev Desc := List Int

/-- JavaScript truthiness of a nullable string (`null`, `undefined` and the
empty string are falsy). -/
def truthy : Option String → Bool
  | none => false
  | some s => s != ""

/-- A persisted person record, as stored by either backend.  The new format
stores a `descriptors` list; a legacy record instead holds a single
`descriptor` field (`descriptors = none`).  Local records created by
`FaceStorage.saveFace` carry no division fields (`none`); cloud records are
tagged with the active division tuple. -/
structure FaceRecord where
  id : String
  name : String
  descriptors : Option (List Desc)
  descriptor : Option Desc
  imageData : String
  timestamp : Int
  attendanceToday : Bool
  lastSeen : Option Int
  department : Option String
  course : Option String
  academicYear : Option String
  division : Option String
deriving DecidableEq, Repr

namespace FaceStorage

/-- face-storage.js `getAllFaces`/`getFace` descriptor resolution: prefer the
`descriptors` list; fall back to the legacy single `descriptor`; otherwise
the empty list. -/
def resolveDescriptors (f : FaceRecord) : List Desc :=
  match f.descriptors with
  | some ds => ds
  | none =>
    match f.descriptor with
    | some d => [d]
    | none => []

/-- The read view of one record: the JS spread `{...face, descriptors}` keeps
every stored field and replaces `descriptors` by the resolved list. -/
def readFace (f : FaceRecord) : FaceRecord :=
  { f with descriptors := some (resolveDescriptors f) }

/-- face-storage.js `getAllFaces()`: every stored record, read through
`readFace` (legacy single-descriptor records upgraded transparently). -/
def getAllFaces (store : List FaceRecord) : List FaceRecord :=
  store.map readFace

/-- face-storage.js `getFace(studentId)`: key lookup, read through
`readFace`; `null` when absent. -/
def getFace (store : List FaceRecord) (studentId : String) : Option FaceRecord :=
  (store.find? (fun f => f.id == studentId)).map readFace

/-- face-storage.js `markAttendance(studentId)`: `false` when the id is
unknown; otherwise the (resolved) record is stored back with
`attendanceToday = true` and `lastSeen = now`, returning `true`. -/
def markAttendance (store : List FaceRecord) (studentId : String) (now : Int) :
    Bool × List FaceRecord :=
  match getFace store studentId with
  | none => (false, store)
  | some face =>
    let updated := { face with attendanceToday := true, lastSeen := some now }
    (true, store.map (fun g => if g.id == studentId then updated else g))

/-- face-storage.js `resetAllAttendance()`: every record (read view) is
stored back with `attendanceToday = false` and `lastSeen = null`. -/
def resetAllAttendance (store : List FaceRecord) : List FaceRecord :=
  store.map (fun f => { readFace f with attendanceToday := false, lastSeen := none })

/-- One labelled entry for matcher construction. -/
structure LabeledFaceDescriptors where
  label : String
  descriptors : List Desc
deriving DecidableEq, Repr

/-- face-storage.js `getLabeledDescriptors()`: note that the source method
takes NO parameter — it always reads `this.getAllFaces()` and labels each
record with `id|name`. -/
def getLabeledDescriptors (store : List FaceRecord) : List LabeledFaceDescriptors :=
  (getAllFaces store).map (fun f =>
    { label := f.id ++ "|" ++ f.name, descriptors := f.descriptors.getD [] })

end FaceStorage

namespace CloudStorage

/-- cloud-storage.js read of one record:
`{...face, descriptors: face.descriptors.map(d => new Float32Array(d))}`.
There is no legacy-format branch: when `descriptors` is absent the
`.map` call throws a TypeError, modelled as `Except.error`. -/
def readFace (f : FaceRecord) : Except String FaceRecord :=
  match f.descriptors with
  | some _ => .ok f
  | none => .error "TypeError: face.descriptors is undefined"

/-- Left-to-right read of a record list; the first throwing record aborts,
as `Array.prototype.map` does. -/
def readAll : List FaceRecord → Except String (List FaceRecord)
  | [] => .ok []
  | f :: fs =>
    match readFace f, readAll fs with
    | .ok g, .ok gs => .ok (g :: gs)
    | .error e, _ => .error e
    | .ok _, .error e => .error e

/-- cloud-storage.js `getAllFaces()`.  The store is the subtree at the
division path `faces/dept/course/year/division`; `none` models a missing
division context (`getFacesRef()` returned `null`), which yields `[]`. -/
def getAllFaces (store : Option (List FaceRecord)) : Except String (List FaceRecord) :=
  match store with
  | none => .ok []
  | some faces => readAll faces

/-- cloud-storage.js `getFace(studentId)`. -/
def getFace (store : Option (List FaceRecord)) (studentId : String) :
    Except String (Option FaceRecord) :=
  match store with
  | none => .ok none
  | some faces =>
    match faces.find? (fun f => f.id == studentId) with
    | none => .ok none
    | some f => (readFace f).map some

/-- cloud-storage.js `markAttendance(studentId)`: `false` when no division
is selected or the id is unknown; otherwise a Firebase `update` sets only
`attendanceToday` and `lastSeen` on the child. -/
def markAttendance (store : Option (List FaceRecord)) (studentId : String) (now : Int) :
    Bool × Option (List FaceRecord) :=
  match store with
  | none => (false, none)
  | some faces =>
    match faces.find? (fun f => f.id == studentId) with
    | none => (false, some faces)
    | some _ =>
      (true, some (faces.map (fun g =>
        if g.id == studentId then { g with attendanceToday := true, lastSeen := some now }
        else g)))

/-- cloud-storage.js `resetAllAttendance()`: one multi-path `update` setting
`attendanceToday = false` and `lastSeen = null` for every child. -/
def resetAllAttendance (store : Option (List FaceRecord)) : Option (List FaceRecord) :=
  match store with
  | none => none
  | some faces =>
    some (faces.map (fun f => { f with attendanceToday := false, lastSeen := none }))

/-- cloud-storage.js `getLabeledDescriptors()`: also takes NO parameter and
reads `this.getAllFaces()`. -/
def getLabeledDescriptors (store : Option (List FaceRecord)) :
    Except String (List FaceStorage.LabeledFaceDescriptors) :=
  (getAllFaces store).map (fun faces =>
    faces.map (fun f =>
      { label := f.id ++ "|" ++ f.name, descriptors := f.descriptors.getD [] }))

end CloudStorage

/-- The local user role, as returned by the identity provider. -/
inductive Role where
  | admin
  | teacher
  | student
deriving DecidableEq, Repr

/-- face-recognition.js `mainSystemConfig`: the observed teaching context. -/
structure MainConfig where
  currentDate : Option String
  selectedSubject : Option String
  selectedMonth : Option Int
  selectedYear : Option Int
  currentDay : Option Int
  selectedDepartment : Option String
  selectedCourse : Option String
  selectedAcademicYear : Option String
  selectedDivision : Option String
deriving DecidableEq, Repr

/-- The real current calendar date (from `new Date()`): day of month,
0-based month, full year. -/
structure DateTriple where
  day : Int
  month : Int
  year : Int
deriving DecidableEq, Repr

/-- The full month-name table of face-recognition.js. -/
def monthNames : List String :=
  ["January", "February", "March", "April", "May", "June",
   "July", "August", "September", "October", "November", "December"]

/-- `monthNames[m]` with JavaScript out-of-range semantics (`undefined`
rendered into a template literal). -/
def monthName (m : Int) : String :=
  if m < 0 then "undefined" else monthNames.getD m.toNat "undefined"

/-- Result object of `validateDateForRole`. -/
structure DateValidation where
  valid : Bool
  targetDay : Option Int := none
  targetMonth : Option Int := none
  targetYear : Option Int := none
  message : String
deriving DecidableEq, Repr

/-- The student-lockout message of `validateDateForRole`, naming both the
real date and the date shown by the main system. -/
def studentDateLockoutMessage (today : DateTriple) (selDay selMonth selYear : Int) : String :=
  "⚠️ STUDENTS CAN ONLY MARK ATTENDANCE FOR TODAY!\n\n" ++
  "Today is: " ++ toString today.day ++ " " ++ monthName today.month ++ " " ++
    toString today.year ++ "\n" ++
  "Main system shows: " ++ toString selDay ++ " " ++ monthName selMonth ++ " " ++
    toString selYear ++ "\n\n" ++
  "You can view other dates in the main system, but face recognition only works for today."

/-- face-recognition.js `validateDateForRole()`.  `connected` is
`this.firebaseSync && this.firebaseSync.isConnected`. -/
def validateDateForRole (role : Role) (connected : Bool) (cfg : MainConfig)
    (today : DateTriple) : DateValidation :=
  if !connected then
    { valid := false,
      message := "⚠️ Firebase not connected. Please check your connection." }
  else
    match cfg.currentDay, cfg.selectedMonth, cfg.selectedYear with
    | some selectedDay, some selectedMonth, some selectedYear =>
      if role = .student then
        if selectedDay ≠ today.day ∨ selectedMonth ≠ today.month ∨ selectedYear ≠ today.year then
          { valid := false,
            message := studentDateLockoutMessage today selectedDay selectedMonth selectedYear }
        else
          { valid := true,
            targetDay := some today.day, targetMonth := some today.month,
            targetYear := some today.year,
            message := "✅ Marking attendance for TODAY (" ++ toString today.day ++ " " ++
              monthName today.month ++ " " ++ toString today.year ++ ")" }
      else
        { valid := true,
          targetDay := some selectedDay, targetMonth := some selectedMonth,
          targetYear := some selectedYear,
          message := "✅ Marking attendance for: " ++ toString selectedDay ++ " " ++
            monthName selectedMonth ++ " " ++ toString selectedYear }
    | _, _, _ =>
      { valid := false,
        message := "⚠️ Please select a date in the main system first!" }

/-- `this.ATTENDANCE_COOLDOWN` (milliseconds). -/
def ATTENDANCE_COOLDOWN : Int := 3000

/-- `this.lastAttendanceTime[studentId] || 0`. -/
def lastTimeOf (lastAttendanceTime : List (String × Int)) (studentId : String) : Int :=
  ((lastAttendanceTime.find? (fun p => p.1 == studentId)).map Prod.snd).getD 0

/-- Observable result of one `markAttendanceWithCooldown` attempt.
`markAttendanceCalls` counts invocations of `storage.markAttendance`;
`validationFailed` carries the date-validation message when the attempt was
rejected (the code then also stops the camera). -/
structure MarkAttemptResult where
  markAttendanceCalls : Nat
  validationFailed : Option String
  cameraStopped : Bool
  marked : Bool
  store : List FaceRecord
deriving DecidableEq, Repr

/-- face-recognition.js `markAttendanceWithCooldown(studentId, ...)`, with
the descriptor store modelled by the local backend.  Order as in the
source: cooldown check, then `validateDateForRole`, then
`storage.markAttendance`. -/
def markAttendanceWithCooldown (role : Role) (connected : Bool) (cfg : MainConfig)
    (today : DateTriple) (lastAttendanceTime : List (String × Int))
    (store : List FaceRecord) (studentId : String) (now : Int) : MarkAttemptResult :=
  let lastTime := lastTimeOf lastAttendanceTime studentId
  if now - lastTime < ATTENDANCE_COOLDOWN then
    { markAttendanceCalls := 0, validationFailed := none, cameraStopped := false,
      marked := false, store := store }
  else
    let dateValidation := validateDateForRole role connected cfg today
    if dateValidation.valid = false then
      { markAttendanceCalls := 0, validationFailed := some dateValidation.message,
        cameraStopped := true, marked := false, store := store }
    else
      match FaceStorage.markAttendance store studentId now with
      | (success, store') =>
        { markAttendanceCalls := 1, validationFailed := none, cameraStopped := false,
          marked := success, store := store' }

/-- face-recognition.js `loadFaceMatcher()` with the local backend: it
fetches all faces, computes `divisionFaces` when the four division fields
are truthy, and passes that list to `storage.getLabeledDescriptors` — which
takes no parameter and re-reads every face, so the filtered list is
ignored. -/
def loadFaceMatcherLocal (store : List FaceRecord) (cfg : MainConfig) :
    List FaceStorage.LabeledFaceDescriptors :=
  let allFaces := FaceStorage.getAllFaces store
  if truthy cfg.selectedDepartment && truthy cfg.selectedCourse &&
     truthy cfg.selectedAcademicYear && truthy cfg.selectedDivision then
    let _divisionFaces := allFaces.filter (fun f =>
      f.department == cfg.selectedDepartment && f.course == cfg.selectedCourse &&
      f.academicYear == cfg.selectedAcademicYear && f.division == cfg.selectedDivision)
    FaceStorage.getLabeledDescriptors store
  else
    FaceStorage.getLabeledDescriptors store

/-- The division filter loadFaceMatcher computes (and the restriction the
spec asserts for matcher construction). -/
def divisionFilter (cfg : MainConfig) (faces : List FaceRecord) : List FaceRecord :=
  faces.filter (fun f =>
    f.department == cfg.selectedDepartment && f.course == cfg.selectedCourse &&
    f.academicYear == cfg.selectedAcademicYear && f.division == cfg.selectedDivision)

/-- A registry entry at `mainSystem/activeQRs/{qrId}`. -/
structure QRRegistryEntry where
  expiresAt : Int
deriving DecidableEq, Repr

/-- The parsed payload of a scanned session token. -/
structure QRData where
  qrId : Option String
  department : Option String
  course : Option String
  academicYear : Option String
  division : Option String
  subject : Option String
  month : Option Int
  year : Option Int
  day : Option Int
deriving DecidableEq, Repr

/-- The FIRST `validateQRSession` definition of face-recognition.js
(lines 246-275): fail-closed when Firebase is not connected, `false` when
the registry entry is missing or expired, and — per its own comment
"On error, allow (fail open)" — `true` when the lookup itself throws.
In JavaScript this method is SHADOWED by the later definition of the same
name in the same class body, so it is never the one invoked. -/
def validateQRSessionFirstDef (connected : Bool)
    (lookup : Except Unit (Option QRRegistryEntry)) (now : Int) : Bool :=
  if !connected then false
  else
    match lookup with
    | .error _ => true
    | .ok none => false
    | .ok (some qrData) => decide (¬ now > qrData.expiresAt)

/-- The SECOND, effective `validateQRSession` definition (lines 2674-2681).
It has no connection guard and no try/catch: a lookup error propagates to
the caller as an exception. -/
def validateQRSession (lookup : Except Unit (Option QRRegistryEntry)) (now : Int) :
    Except Unit Bool :=
  match lookup with
  | .error e => .error e
  | .ok none => .ok false
  | .ok (some qrData) => .ok (decide (¬ now > qrData.expiresAt))

/-- Outcome of `handleQRScan`.  `invalidQRFormat` is the terminal catch
(shown as "❌ Invalid QR code format"), reached on a JSON parse failure or
on any exception thrown inside the handler. -/
inductive ScanOutcome where
  | invalidQRFormat
  | missingQRId
  | wrongDivision
  | firebaseNotConnected
  | qrExpiredOrInvalid
  | accepted
deriving DecidableEq, Repr

/-- Context application after a token is accepted: admin/teacher take the
division tuple from the token; students keep their account division;
subject/month/year/day are applied for every role. -/
def applyQRConfig (role : Role) (cfg : MainConfig) (qrData : QRData) : MainConfig :=
  let cfg1 :=
    if role ≠ Role.student then
      { cfg with selectedDepartment := qrData.department,
                 selectedCourse := qrData.course,
                 selectedAcademicYear := qrData.academicYear,
                 selectedDivision := qrData.division }
    else cfg
  { cfg1 with selectedSubject := qrData.subject,
              selectedMonth := qrData.month,
              selectedYear := qrData.year,
              currentDay := qrData.day }

/-- face-recognition.js `handleQRScan` validation pipeline, in source
order: parse, qrId presence, student division match, connection check,
`validateQRSession` (the effective second definition; a thrown lookup
error falls through to the terminal catch), then context application.
`parsed = none` models a `JSON.parse` failure. -/
def handleQRScan (role : Role) (cfg : MainConfig) (connected : Bool)
    (parsed : Option QRData) (lookup : Except Unit (Option QRRegistryEntry))
    (now : Int) : ScanOutcome × MainConfig :=
  match parsed with
  | none => (.invalidQRFormat, cfg)
  | some qrData =>
    if !truthy qrData.qrId then (.missingQRId, cfg)
    else if role = Role.student ∧
        (cfg.selectedDepartment ≠ qrData.department ∨
         cfg.selectedCourse ≠ qrData.course ∨
         cfg.selectedAcademicYear ≠ qrData.academicYear ∨
         cfg.selectedDivision ≠ qrData.division) then
      (.wrongDivision, cfg)
    else if !connected then (.firebaseNotConnected, cfg)
    else
      match validateQRSession lookup now with
      | .error _ => (.invalidQRFormat, cfg)
      | .ok false => (.qrExpiredOrInvalid, cfg)
      | .ok true => (.accepted, applyQRConfig role cfg qrData)

/-- The remote single global current-code record at
`mainSystem/dynamicCode`. -/
structure DynamicCodeRecord where
  code : String
  expiresAt : Int
deriving DecidableEq, Repr

/-- Result of `verifyDynamicCode`. -/
inductive CodeVerification where
  | valid
  | invalid (reason : String)
deriving DecidableEq, Repr

/-- face-recognition.js `verifyDynamicCode(userEnteredCode)`.  NOTE the
first branch of the source: when Firebase is not connected it returns
`{valid: true}` ("allowing offline mode") without consulting any code
record. -/
def verifyDynamicCode (connected : Bool)
    (lookup : Except Unit (Option DynamicCodeRecord)) (now : Int)
    (userEnteredCode : String) : CodeVerification :=
  if !connected then .valid
  else
    match lookup with
    | .error _ => .invalid "Connection error. Please try again."
    | .ok none =>
      .invalid "No active code found. Ask teacher to generate a new QR code."
    | .ok (some data) =>
      if now > data.expiresAt then
        .invalid "Code expired. Get the new code from the teacher\x27s screen."
      else if data.code ≠ userEnteredCode then
        .invalid "Wrong code. Check the number on the teacher\x27s screen."
      else .valid

/-- The code-input handler first strips non-digits:
`e.target.value.replace(/[^0-9]/g, '')`. -/
def sanitizeCodeInput (s : String) : String :=
  String.mk (s.toList.filter Char.isDigit)

/-- One step of the security-code input listener. -/
inductive CodeInputAction where
  | waitForMoreDigits
  | verified (result : CodeVerification)
deriving DecidableEq, Repr

/-- The `input` listener on the security-code field: after sanitizing, it
auto-submits (calls `verifyDynamicCode`) exactly when the sanitized value
has length 4. -/
def codeInputHandler (connected : Bool)
    (lookup : Except Unit (Option DynamicCodeRecord)) (now : Int)
    (raw : String) : CodeInputAction :=
  let value := sanitizeCodeInput raw
  if value.length = 4 then .verified (verifyDynamicCode connected lookup now value)
  else .waitForMoreDigits

/-- Whether the camera (recognition) is unlocked by this input step — the
listener calls `enableCameraButton` exactly on a `valid` verification. -/
def cameraUnlockedByCodeInput (connected : Bool)
    (lookup : Except Unit (Option DynamicCodeRecord)) (now : Int)
    (raw : String) : Bool :=
  match codeInputHandler connected lookup now raw with
  | .verified .valid => true
  | _ => false

/-- Observable state for the Firebase day-change handler
(`handleFirebaseDayChange` / `handleDayChange`).  `resetCalls` counts
invocations of `storage.resetAllAttendance()`; `uiRefreshes` counts
executions of the `updateStudentList(); updateStats()` pair;
`droppedNotifications` counts notifications logged and discarded by the
re-entrancy guard. -/
structure DayChangeState where
  isHandlingDayChange : Bool
  currentDay : Option Int
  recognizedToday : List String
  lastAttendanceTime : List (String × Int)
  resetCalls : Nat
  uiRefreshes : Nat
  configDisplayUpdates : Nat
  droppedNotifications : Nat
deriving DecidableEq, Repr

/-- The synchronous prefix of `handleFirebaseDayChange(newDay, oldDay)`, up
to its first suspension point (the `await` of
`storage.resetAllAttendance()` inside `handleDayChange`):
guard check (a notification arriving with the guard set is logged and
dropped before any state change), `currentDay` update,
`updateConfigDisplay`, actual-change check, guard set, in-memory tracking
cleared, reset initiated.  The returned flag is `true` when a reset pass
was started (so the asynchronous remainder is still pending). -/
def handleFirebaseDayChangeStart (s : DayChangeState) (newDay : Option Int) :
    DayChangeState × Bool :=
  if s.isHandlingDayChange then
    ({ s with droppedNotifications := s.droppedNotifications + 1 }, false)
  else
    let previousDay := s.currentDay
    let s1 := { s with currentDay := newDay,
                       configDisplayUpdates := s.configDisplayUpdates + 1 }
    match newDay with
    | none => (s1, false)
    | some _ =>
      if newDay = previousDay then (s1, false)
      else
        ({ s1 with isHandlingDayChange := true,
                   recognizedToday := [],
                   lastAttendanceTime := [],
                   resetCalls := s1.resetCalls + 1 }, true)

/-- The asynchronous remainder of a started `handleFirebaseDayChange` pass,
run after `resetAllAttendance` resolves: `handleDayChange` refreshes the
student list and stats (one UI-refresh pair), then `handleFirebaseDayChange`
itself refreshes both again (a second pair), and the `finally` block clears
the guard. -/
def handleFirebaseDayChangeFinish (s : DayChangeState) : DayChangeState :=
  { s with uiRefreshes := s.uiRefreshes + 2, isHandlingDayChange := false }

/-- Two rapid day-change notifications: the second arrives while the first
pass is still awaiting its reset (interleaving permitted by the
single-threaded event loop), after which any started pass completes. -/
def twoRapidDayChangeNotifications (s : DayChangeState) (d1 d2 : Option Int) :
    DayChangeState :=
  match handleFirebaseDayChangeStart s d1 with
  | (s1, started1) =>
    match handleFirebaseDayChangeStart s1 d2 with
    | (s2, started2) =>
      let s3 := if started1 then handleFirebaseDayChangeFinish s2 else s2
      if started2 then handleFirebaseDayChangeFinish s3 else s3

/-- Status of a leave application. -/
inductive LeaveStatus where
  | pending
  | approved
  | rejected
deriving DecidableEq, Repr

/-- A leave application record (leave.js). -/
structure LeaveApplication where
  id : String
  studentId : String
  studentName : String
  fromDate : String
  toDate : String
  days : List Int
  reason : String
  status : LeaveStatus
  approvedBy : Option String
  approvedAt : Option Int
  rejectedBy : Option String
  rejectedAt : Option Int
deriving DecidableEq, Repr

/-- Result of a leave action. -/
inductive LeaveActionResult where
  | notFound
  | cancelled
  | divisionIncomplete
  | done
deriving DecidableEq, Repr

/-- leave.js `approveLeave(leaveId)`: find the application (any status),
confirm dialog, division-path check, then an update setting status to
approved together with approvedBy and approvedAt.  No check of the prior
status is performed. -/
def approveLeave (store : List LeaveApplication) (leaveId : String)
    (confirmed : Bool) (approver : String) (divisionComplete : Bool)
    (now : Int) : LeaveActionResult × List LeaveApplication :=
  match store.find? (fun l => l.id == leaveId) with
  | none => (.notFound, store)
  | some _ =>
    if !confirmed then (.cancelled, store)
    else if !divisionComplete then (.divisionIncomplete, store)
    else
      (.done, store.map (fun l =>
        if l.id == leaveId then
          { l with status := .approved, approvedBy := some approver,
                   approvedAt := some now }
        else l))

/-- leave.js `rejectLeave(leaveId)`: symmetric to `approveLeave`. -/
def rejectLeave (store : List LeaveApplication) (leaveId : String)
    (confirmed : Bool) (rejecter : String) (divisionComplete : Bool)
    (now : Int) : LeaveActionResult × List LeaveApplication :=
  match store.find? (fun l => l.id == leaveId) with
  | none => (.notFound, store)
  | some _ =>
    if !confirmed then (.cancelled, store)
    else if !divisionComplete then (.divisionIncomplete, store)
    else
      (.done, store.map (fun l =>
        if l.id == leaveId then
          { l with status := .rejected, rejectedBy := some rejecter,
                   rejectedAt := some now }
        else l))

/-- leave.js `deleteLeave(leaveId)`: find the application, confirm dialog,
division-path check, then remove the record.  The function performs NO
status check — the status is never consulted. -/
def deleteLeave (store : List LeaveApplication) (leaveId : String)
    (confirmed : Bool) (divisionComplete : Bool) :
    LeaveActionResult × List LeaveApplication :=
  match store.find? (fun l => l.id == leaveId) with
  | none => (.notFound, store)
  | some _ =>
    if !confirmed then (.cancelled, store)
    else if !divisionComplete then (.divisionIncomplete, store)
    else (.done, store.filter (fun l => l.id != leaveId))

/-- The action controls the leave table renders for one row: approve and
reject buttons for a pending row, the delete button otherwise.  This — and
only this — is where terminal-only deletion is enforced. -/
def leaveActionButtons (status : LeaveStatus) : List String :=
  match status with
  | .pending => ["approve", "reject"]
  | _ => ["delete"]

/-- Projection used to state frame conditions: a person as identified by id
together with the descriptors the read returns. -/
def idAndDescriptors (f : FaceRecord) : String × Option (List Desc) :=
  (f.id, f.descriptors)

/-- A well-formed (new-format) sample record. -/
def sampleFace : FaceRecord :=
  { id := "101", name := "Asha", descriptors := some [[1, 2]], descriptor := none,
    imageData := "img", timestamp := 0, attendanceToday := true, lastSeen := some 1,
    department := some "CS", course := some "BTech", academicYear := some "2024",
    division := some "A" }

/-- A legacy record: single `descriptor` field, no `descriptors` list. -/
def legacyFace : FaceRecord :=
  { id := "7", name := "Lata", descriptors := none, descriptor := some [3, 4],
    imageData := "img", timestamp := 0, attendanceToday := false, lastSeen := none,
    department := none, course := none, academicYear := none, division := none }


/-- C7: `markPresent(id)` (`markAttendance`) returns `false` when no record
with that id exists; otherwise it sets the record's present flag
(`attendanceToday`) to `true` and its last-seen time (`lastSeen`) to the
current time and returns `true` — for the local (`FaceStorage`) and the
remote (`CloudStorage`) Descriptor Store backends alike. -/
theorem C7_markAttendance_marks_known_ids_only
    (store faces : List FaceRecord) (sid : String) (now : Int) :
    (store.find? (fun f => f.id == sid) = none →
      FaceStorage.markAttendance store sid now = (false, store)) ∧
    (∀ f0, store.find? (fun f => f.id == sid) = some f0 →
      (FaceStorage.markAttendance store sid now).1 = true ∧
      ∀ g ∈ (FaceStorage.markAttendance store sid now).2,
        g.id = sid → g.attendanceToday = true ∧ g.lastSeen = some now) ∧
    (faces.find? (fun f => f.id == sid) = none →
      CloudStorage.markAttendance (some faces) sid now = (false, some faces)) ∧
    (∀ f0, faces.find? (fun f => f.id == sid) = some f0 →
      (CloudStorage.markAttendance (some faces) sid now).1 = true ∧
      ∀ l, (CloudStorage.markAttendance (some faces) sid now).2 = some l →
        ∀ g ∈ l, g.id = sid → g.attendanceToday = true ∧ g.lastSeen = some now) := by
  refine ⟨?_, ?_, ?_, ?_⟩
  · intro h
    simp [FaceStorage.markAttendance, FaceStorage.getFace, h]
  · intro f0 h
    have hget : FaceStorage.getFace store sid = some (FaceStorage.readFace f0) := by
      simp [FaceStorage.getFace, h]
    constructor
    · simp [FaceStorage.markAttendance, hget]
    · intro g hg hid
      simp only [FaceStorage.markAttendance, hget] at hg
      rcases List.mem_map.mp hg with ⟨a, _ha, rfl⟩
      by_cases hb : a.id == sid
      · simp [hb]
      · simp only [hb, if_false] at hid ⊢
        exact absurd hid (by simpa using hb)
  · intro h
    simp [CloudStorage.markAttendance, h]
  · intro f0 h
    constructor
    · simp [CloudStorage.markAttendance, h]
    · intro l hl g hg hid
      simp only [CloudStorage.markAttendance, h, Option.some.injEq] at hl
      subst hl
      rcases List.mem_map.mp hg with ⟨a, _ha, rfl⟩
      by_cases hb : a.id == sid
      · simp [hb]
      · simp only [hb, if_false] at hid ⊢
        exact absurd hid (by simpa using hb)

/-- C7 witness: the two interesting hypotheses discharged at concrete
stores. -/
theorem C7_markAttendance_marks_known_ids_only_witness :
    (FaceStorage.markAttendance [sampleFace] "101" 5).1 = true ∧
    FaceStorage.markAttendance [legacyFace] "101" 5 = (false, [legacyFace]) ∧
    (CloudStorage.markAttendance (some [sampleFace]) "101" 5).1 = true :=
  ⟨((C7_markAttendance_marks_known_ids_only [sampleFace] [sampleFace] "101" 5).2.1
      sampleFace (by decide)).1,
   (C7_markAttendance_marks_known_ids_only [legacyFace] [legacyFace] "101" 5).1 (by decide),
   ((C7_markAttendance_marks_known_ids_only [sampleFace] [sampleFace] "101" 5).2.2.2
      sampleFace (by decide)).1⟩

/-- Helper: the resolved read view of a record is invariant under the
attendance reset (the reset writes back the read view with only the two
attendance fields changed). -/
theorem readFace_reset (f : FaceRecord) :
    FaceStorage.readFace
        { FaceStorage.readFace f with attendanceToday := false, lastSeen := none } =
      { FaceStorage.readFace f with attendanceToday := false, lastSeen := none } := by
  simp [FaceStorage.readFace, FaceStorage.resolveDescriptors]

/-- C8: `resetAllPresence` (`resetAllAttendance`) followed by `getAll`
(`getAllFaces`) yields `presentToday = false` (`attendanceToday = false`)
for every persisted person, and the reset changes neither the id nor the
descriptors list of any person — on the local backend for every store, and
on the cloud backend for every well-formed division subtree. -/
theorem C8_reset_clears_flags_preserves_identity
    (store faces : List FaceRecord) (hwf : ∀ f ∈ faces, f.descriptors ≠ none) :
    ((∀ g ∈ FaceStorage.getAllFaces (FaceStorage.resetAllAttendance store),
        g.attendanceToday = false) ∧
      (FaceStorage.getAllFaces (FaceStorage.resetAllAttendance store)).map
          idAndDescriptors =
        (FaceStorage.getAllFaces store).map idAndDescriptors) ∧
    (∃ l, CloudStorage.getAllFaces (CloudStorage.resetAllAttendance (some faces)) = .ok l ∧
      (∀ g ∈ l, g.attendanceToday = false) ∧
      l.map idAndDescriptors = faces.map idAndDescriptors) := by
  refine ⟨⟨?_, ?_⟩, ?_⟩
  · intro g hg
    simp only [FaceStorage.getAllFaces, FaceStorage.resetAllAttendance, List.map_map] at hg
    rcases List.mem_map.mp hg with ⟨a, _ha, rfl⟩
    simp [Function.comp, readFace_reset a]
  · simp only [FaceStorage.getAllFaces, FaceStorage.resetAllAttendance, List.map_map]
    refine List.map_congr_left ?_
    intro a _ha
    simp [Function.comp, readFace_reset a, idAndDescriptors, FaceStorage.readFace,
      FaceStorage.resolveDescriptors]
  · refine ⟨faces.map (fun f => { f with attendanceToday := false, lastSeen := none }), ?_, ?_, ?_⟩
    · simp only [CloudStorage.resetAllAttendance, CloudStorage.getAllFaces]
      induction faces with
      | nil => rfl
      | cons f fs ih =>
        have hf : f.descriptors ≠ none := hwf f (by simp)
        have ihok := ih (fun x hx => hwf x (by simp [hx]))
        rcases hds : f.descriptors with _ | ds
        · exact absurd hds hf
        · simp only [List.map_cons, CloudStorage.readAll, CloudStorage.readFace, hds, ihok]
    · intro g hg
      rcases List.mem_map.mp hg with ⟨a, _ha, rfl⟩
      rfl
    · simp [idAndDescriptors]

/-- C8 witness: the cloud well-formedness hypothesis discharged at a
concrete subtree. -/
theorem C8_reset_clears_flags_preserves_identity_witness :
    (FaceStorage.getAllFaces (FaceStorage.resetAllAttendance [sampleFace, legacyFace])).map
        idAndDescriptors =
      (FaceStorage.getAllFaces [sampleFace, legacyFace]).map idAndDescriptors :=
  (C8_reset_clears_flags_preserves_identity [sampleFace, legacyFace] [sampleFace]
    (by decide)).1.2

/-- C9 counterexample: the cloud backend does NOT tolerate a legacy
single-descriptor record — `getAllFaces` throws (models
`face.descriptors.map` on `undefined`) instead of upgrading it, while the
local backend upgrades the very same record to a one-element list. -/
theorem C9_counterexample_cloud_read_rejects_legacy :
    CloudStorage.getAllFaces (some [legacyFace]) =
      .error "TypeError: face.descriptors is undefined" ∧
    FaceStorage.getAllFaces [legacyFace] =
      [{ legacyFace with descriptors := some [[3, 4]] }] := by
  exact ⟨rfl, rfl⟩

/-- C9 (amended): only the local backend's read operations (`getAllFaces`,
`getFace`) upgrade a legacy record holding a single `descriptor` field to a
one-element `descriptors` list; the cloud backend's reads fail on such a
record. -/
theorem C9_local_reads_upgrade_legacy_records
    (store : List FaceRecord) (f : FaceRecord) (d : Desc)
    (hleg : f.descriptors = none) (hd : f.descriptor = some d) :
    (f ∈ store → { f with descriptors := some [d] } ∈ FaceStorage.getAllFaces store) ∧
    (∀ sid, store.find? (fun x => x.id == sid) = some f →
      FaceStorage.getFace store sid = some { f with descriptors := some [d] }) ∧
    CloudStorage.readFace f = .error "TypeError: face.descriptors is undefined" := by
  have hresolve : FaceStorage.readFace f = { f with descriptors := some [d] } := by
    simp [FaceStorage.readFace, FaceStorage.resolveDescriptors, hleg, hd]
  refine ⟨?_, ?_, ?_⟩
  · intro hmem
    simpa [FaceStorage.getAllFaces, hresolve] using
      List.mem_map_of_mem FaceStorage.readFace hmem
  · intro sid hfind
    simp [FaceStorage.getFace, hfind, hresolve]
  · simp [CloudStorage.readFace, hleg]

/-- C9 witness: the amended theorem at the concrete legacy record. -/
theorem C9_local_reads_upgrade_legacy_records_witness :
    FaceStorage.getFace [legacyFace] "7" =
      some { legacyFace with descriptors := some [[3, 4]] } :=
  (C9_local_reads_upgrade_legacy_records [legacyFace] legacyFace [3, 4]
    rfl rfl).2.1 "7" (by decide)

/-- A record belonging to division CS/BTech/2024/A. -/
def divisionAFace : FaceRecord :=
  { id := "201", name := "Asha", descriptors := some [[1]], descriptor := none,
    imageData := "", timestamp := 0, attendanceToday := false, lastSeen := none,
    department := some "CS", course := some "BTech", academicYear := some "2024",
    division := some "A" }

/-- A record belonging to division CS/BTech/2024/B — it differs from
division A in exactly one of the four division fields. -/
def divisionBFace : FaceRecord :=
  { id := "202", name := "Meera", descriptors := some [[2]], descriptor := none,
    imageData := "", timestamp := 0, attendanceToday := false, lastSeen := none,
    department := some "CS", course := some "BTech", academicYear := some "2024",
    division := some "B" }

/-- A teaching context whose division tuple is CS/BTech/2024/A. -/
def divisionAConfig : MainConfig :=
  { currentDate := none, selectedSubject := none, selectedMonth := none,
    selectedYear := none, currentDay := none,
    selectedDepartment := some "CS", selectedCourse := some "BTech",
    selectedAcademicYear := some "2024", selectedDivision := some "A" }

/-- C6: `loadFaceMatcher` computes the division filter — which here keeps
only the division-A record — yet the matcher it builds still contains the
division-B record, because both `getLabeledDescriptors` implementations
take no parameter and ignore the filtered list that is passed to them.
This contradicts the division-filter invariant (and the function's own log
message claiming the faces were filtered). -/
theorem C6_matcher_includes_record_outside_division :
    divisionFilter divisionAConfig [divisionAFace, divisionBFace] = [divisionAFace] ∧
    (loadFaceMatcherLocal [divisionAFace, divisionBFace] divisionAConfig).map
        (fun e => e.label) = ["201|Asha", "202|Meera"] := by
  exact ⟨by decide, by decide⟩

/-- Helper: with a connected sync, a fully selected date and a student
role, a mismatch with the real date makes `validateDateForRole` fail with
the lockout message naming both dates. -/
theorem validateDateForRole_student_mismatch (cfg : MainConfig) (today : DateTriple)
    (d m y : Int) (hd : cfg.currentDay = some d) (hm : cfg.selectedMonth = some m)
    (hy : cfg.selectedYear = some y)
    (hne : ¬(d = today.day ∧ m = today.month ∧ y = today.year)) :
    validateDateForRole .student true cfg today =
      { valid := false, message := studentDateLockoutMessage today d m y } := by
  have hcond : d ≠ today.day ∨ m ≠ today.month ∨ y ≠ today.year := by tauto
  simp [validateDateForRole, hd, hm, hy, hcond]

/-- C2: with role student, Firebase connected, and the teaching context's
day/month/year differing from the real current calendar date, an
attendance-mark attempt never calls `markPresent` (`markAttendance`) and —
once the cooldown allows the attempt to be validated — fails date
validation with the message naming both dates and stops the camera. -/
theorem C2_student_date_lockout (cfg : MainConfig) (today : DateTriple)
    (lastAttendanceTime : List (String × Int)) (store : List FaceRecord)
    (sid : String) (now d m y : Int)
    (hd : cfg.currentDay = some d) (hm : cfg.selectedMonth = some m)
    (hy : cfg.selectedYear = some y)
    (hne : ¬(d = today.day ∧ m = today.month ∧ y = today.year)) :
    (markAttendanceWithCooldown .student true cfg today lastAttendanceTime store
        sid now).markAttendanceCalls = 0 ∧
    (markAttendanceWithCooldown .student true cfg today lastAttendanceTime store
        sid now).store = store ∧
    (markAttendanceWithCooldown .student true cfg today lastAttendanceTime store
        sid now).marked = false ∧
    (ATTENDANCE_COOLDOWN ≤ now - lastTimeOf lastAttendanceTime sid →
      (markAttendanceWithCooldown .student true cfg today lastAttendanceTime store
          sid now).validationFailed = some (studentDateLockoutMessage today d m y) ∧
      (markAttendanceWithCooldown .student true cfg today lastAttendanceTime store
          sid now).cameraStopped = true) := by
  have hval := validateDateForRole_student_mismatch cfg today d m y hd hm hy hne
  by_cases hcool : now - lastTimeOf lastAttendanceTime sid < ATTENDANCE_COOLDOWN
  · simp [markAttendanceWithCooldown, hcool]
  · simp [markAttendanceWithCooldown, hcool, hval]

/-- The teaching context of the lockout scenario: day 5, November, 2025,
for a student of division CS/BTech/2024/A. -/
def lockoutConfig : MainConfig :=
  { divisionAConfig with currentDay := some 5, selectedMonth := some 10,
                         selectedYear := some 2025 }

/-- C2 witness: the scenario of the spec — context day 5, real today
day 12 of the same month and year. -/
theorem C2_student_date_lockout_witness :
    (markAttendanceWithCooldown .student true lockoutConfig ⟨12, 10, 2025⟩ [] [sampleFace]
        "101" 100000).markAttendanceCalls = 0 ∧
    (markAttendanceWithCooldown .student true lockoutConfig ⟨12, 10, 2025⟩ [] [sampleFace]
        "101" 100000).validationFailed =
      some (studentDateLockoutMessage ⟨12, 10, 2025⟩ 5 10 2025) := by
  have h := C2_student_date_lockout lockoutConfig ⟨12, 10, 2025⟩ [] [sampleFace]
    "101" 100000 5 10 2025 rfl rfl rfl (by decide)
  exact ⟨h.1, (h.2.2.2 (by decide)).1⟩

/-- A well-formed session token for division CS/BTech/2024/A. -/
def tokenForA : QRData :=
  { qrId := some "qr-1", department := some "CS", course := some "BTech",
    academicYear := some "2024", division := some "A", subject := some "Math",
    month := some 10, year := some 2025, day := some 12 }

/-- A well-formed session token for division CS/BTech/2024/B. -/
def tokenForB : QRData :=
  { tokenForA with qrId := some "qr-2", division := some "B" }

/-- C3: with Firebase connected and a validity lookup that throws, the
effective `validateQRSession` (the second, overriding definition, which
has no try/catch) propagates the error, so `handleQRScan` lands in its
terminal catch and the scan is REJECTED ("Invalid QR code format") — while
the shadowed first definition, whose own comment says "On error, allow
(fail open)", would have accepted it.  The fail-closed no-connection branch
behaves as documented. -/
theorem C3_lookup_error_rejected_despite_fail_open_intent :
    handleQRScan .teacher divisionAConfig true (some tokenForA) (.error ()) 0 =
      (.invalidQRFormat, divisionAConfig) ∧
    validateQRSessionFirstDef true (.error ()) 0 = true ∧
    validateQRSession (.error ()) 0 = .error () ∧
    handleQRScan .teacher divisionAConfig false (some tokenForA)
        (.ok (some { expiresAt := 99999 })) 0 =
      (.firebaseNotConnected, divisionAConfig) := by
  exact ⟨rfl, rfl, rfl, rfl⟩

/-- C4: a student scanning a token whose division tuple differs in at
least one of the four fields gets the WRONG DIVISION rejection, and the
teaching context is left completely unmodified. -/
theorem C4_wrong_division_scan_rejected_without_context_change
    (cfg : MainConfig) (qrData : QRData) (connected : Bool)
    (lookup : Except Unit (Option QRRegistryEntry)) (now : Int)
    (hqr : truthy qrData.qrId = true)
    (hmis : cfg.selectedDepartment ≠ qrData.department ∨
            cfg.selectedCourse ≠ qrData.course ∨
            cfg.selectedAcademicYear ≠ qrData.academicYear ∨
            cfg.selectedDivision ≠ qrData.division) :
    handleQRScan .student cfg connected (some qrData) lookup now =
      (.wrongDivision, cfg) := by
  unfold handleQRScan
  dsimp only
  rw [hqr]
  rw [if_neg (by simp)]
  rw [if_pos ⟨rfl, hmis⟩]

/-- C4 witness: the scenario of the spec — a student of division
(CS, BTech, 2024, A) scans a token for (CS, BTech, 2024, B). -/
theorem C4_wrong_division_scan_rejected_without_context_change_witness :
    handleQRScan .student divisionAConfig true (some tokenForB)
        (.ok (some { expiresAt := 99999 })) 0 =
      (.wrongDivision, divisionAConfig) :=
  C4_wrong_division_scan_rejected_without_context_change divisionAConfig tokenForB
    true (.ok (some { expiresAt := 99999 })) 0 (by decide) (by decide)

/-- C5 counterexample: with no live connection at verification time,
`verifyDynamicCode` returns valid and the camera is unlocked even though
NO current-code record exists to match — recognition is permitted without
the entered code matching any record. -/
theorem C5_counterexample_offline_code_accepted :
    verifyDynamicCode false (.ok none) 0 "1234" = .valid ∧
    cameraUnlockedByCodeInput false (.ok none) 0 "1234" = true := by
  exact ⟨rfl, rfl⟩

/-- C5 (amended): when a live connection exists, the code gate accepts
exactly when the remote global current-code record exists, is unexpired
and equals the entered code; verification auto-submits exactly when the
sanitized input reaches 4 digits (and the no-connection case is an
offline fail-open that skips the check). -/
theorem C5_code_gate_specification
    (lookup : Except Unit (Option DynamicCodeRecord)) (now : Int)
    (userEnteredCode raw : String) (connected : Bool) :
    (verifyDynamicCode true lookup now userEnteredCode = .valid ↔
      ∃ data, lookup = .ok (some data) ∧ ¬ now > data.expiresAt ∧
        data.code = userEnteredCode) ∧
    ((sanitizeCodeInput raw).length = 4 →
      codeInputHandler connected lookup now raw =
        .verified (verifyDynamicCode connected lookup now (sanitizeCodeInput raw))) ∧
    ((sanitizeCodeInput raw).length ≠ 4 →
      codeInputHandler connected lookup now raw = .waitForMoreDigits) ∧
    verifyDynamicCode false lookup now userEnteredCode = .valid := by
  refine ⟨?_, ?_, ?_, rfl⟩
  · rcases lookup with e | data
    · simp [verifyDynamicCode]
    · rcases data with _ | data
      · simp [verifyDynamicCode]
      · by_cases hexp : now > data.expiresAt
        · simp [verifyDynamicCode, hexp]
        · by_cases hcode : data.code = userEnteredCode
          · subst hcode
            simp [verifyDynamicCode, hexp, le_of_not_lt hexp]
          · simp [verifyDynamicCode, hexp, hcode]
  · intro h4
    simp [codeInputHandler, h4]
  · intro h4
    simp [codeInputHandler, h4]

/-- C5 witness: a matching unexpired code accepted at the 4th digit, using
the amended theorem directly. -/
theorem C5_code_gate_specification_witness :
    verifyDynamicCode true (.ok (some { code := "1234", expiresAt := 999 })) 0 "1234" =
      .valid ∧
    codeInputHandler true (.ok (some { code := "1234", expiresAt := 999 })) 0 "1234" =
      .verified (verifyDynamicCode true (.ok (some { code := "1234", expiresAt := 999 }))
        0 (sanitizeCodeInput "1234")) :=
  ⟨(C5_code_gate_specification (.ok (some { code := "1234", expiresAt := 999 })) 0
      "1234" "1234" true).1.mpr
    ⟨{ code := "1234", expiresAt := 999 }, rfl, by decide, rfl⟩,
   (C5_code_gate_specification (.ok (some { code := "1234", expiresAt := 999 })) 0
      "1234" "1234" true).2.1 (by decide)⟩

/-- An idle state on day 4 with one person already recognized. -/
def idleDayState : DayChangeState :=
  { isHandlingDayChange := false, currentDay := some 4,
    recognizedToday := ["101"], lastAttendanceTime := [("101", 10)],
    resetCalls := 0, uiRefreshes := 0, configDisplayUpdates := 0,
    droppedNotifications := 0 }

/-- C1 counterexample: two rapid, distinct day-change notifications (4→5,
then 6 while the guard is set) produce exactly one `resetAllAttendance`
call, but the UI is refreshed twice, not once — the single surviving pass
itself refreshes the student list and stats once inside `handleDayChange`
and once more in `handleFirebaseDayChange`. -/
theorem C1_counterexample_two_ui_refreshes :
    (twoRapidDayChangeNotifications idleDayState (some 5) (some 6)).resetCalls = 1 ∧
    (twoRapidDayChangeNotifications idleDayState (some 5) (some 6)).uiRefreshes ≠ 1 ∧
    (twoRapidDayChangeNotifications idleDayState (some 5) (some 6)).uiRefreshes = 2 := by
  exact ⟨by decide, by decide, by decide⟩

/-- C1 (amended): starting from an idle guard, two rapid, distinct
day-change notifications collapse into one handling pass — exactly one
`resetAllAttendance` call, the UI-refresh pair running only the two times
of that single pass (inside `handleDayChange` and again in
`handleFirebaseDayChange`), with the second notification logged and
dropped (it starts no pass, changes no state, and is not queued — the
final day is the first notification's). -/
theorem C1_guard_collapses_two_notifications (s : DayChangeState) (d1 d2 : Int)
    (hguard : s.isHandlingDayChange = false)
    (hchange : s.currentDay ≠ some d1) (_hdistinct : d1 ≠ d2) :
    (twoRapidDayChangeNotifications s (some d1) (some d2)).resetCalls =
      s.resetCalls + 1 ∧
    (twoRapidDayChangeNotifications s (some d1) (some d2)).uiRefreshes =
      s.uiRefreshes + 2 ∧
    (twoRapidDayChangeNotifications s (some d1) (some d2)).droppedNotifications =
      s.droppedNotifications + 1 ∧
    (twoRapidDayChangeNotifications s (some d1) (some d2)).currentDay = some d1 ∧
    (twoRapidDayChangeNotifications s (some d1) (some d2)).isHandlingDayChange = false ∧
    (handleFirebaseDayChangeStart
        (handleFirebaseDayChangeStart s (some d1)).1 (some d2)).2 = false := by
  have hne : ¬(some d1 = s.currentDay) := fun h => hchange h.symm
  simp [twoRapidDayChangeNotifications, handleFirebaseDayChangeStart,
    handleFirebaseDayChangeFinish, hguard, hne]

/-- C1 witness: the amended theorem at the concrete idle state, days 5 and
6. -/
theorem C1_guard_collapses_two_notifications_witness :
    (twoRapidDayChangeNotifications idleDayState (some 5) (some 6)).resetCalls = 0 + 1 ∧
    (twoRapidDayChangeNotifications idleDayState (some 5) (some 6)).uiRefreshes = 0 + 2 :=
  ⟨(C1_guard_collapses_two_notifications idleDayState 5 6 rfl (by decide) (by decide)).1,
   (C1_guard_collapses_two_notifications idleDayState 5 6 rfl (by decide) (by decide)).2.1⟩

/-- A still-pending leave application. -/
def pendingLeave : LeaveApplication :=
  { id := "L1", studentId := "101", studentName := "Asha",
    fromDate := "2025-12-01", toDate := "2025-12-03", days := [1, 2, 3],
    reason := "fever", status := .pending, approvedBy := none,
    approvedAt := none, rejectedBy := none, rejectedAt := none }

/-- C10 counterexample: `deleteLeave` succeeds on a STILL-PENDING
application — with the confirm dialog accepted and the division context
complete, the pending record is removed and the call reports success; the
engine never consults the status. -/
theorem C10_counterexample_delete_pending_succeeds :
    pendingLeave.status = .pending ∧
    deleteLeave [pendingLeave] "L1" true true = (.done, []) := by
  exact ⟨rfl, rfl⟩

/-- C10 (amended): `approveLeave` transitions any existing application to
approved with the approver identity and timestamp, and `deleteLeave`
removes any existing application regardless of its status — pending
included; terminal-only deletion (and one-directionality) is enforced only
by the UI, which offers approve/reject controls on pending rows and the
delete control on non-pending rows. -/
theorem C10_leave_engine_status_blind (store : List LeaveApplication)
    (leaveId : String) (app : LeaveApplication) (approver : String) (now : Int)
    (hfind : store.find? (fun l => l.id == leaveId) = some app) :
    ((approveLeave store leaveId true approver true now).1 = .done ∧
      ∀ l ∈ (approveLeave store leaveId true approver true now).2,
        l.id = leaveId → l.status = .approved ∧ l.approvedBy = some approver ∧
          l.approvedAt = some now) ∧
    deleteLeave store leaveId true true =
      (.done, store.filter (fun l => l.id != leaveId)) ∧
    (∀ st : LeaveStatus, "delete" ∈ leaveActionButtons st ↔ st ≠ .pending) := by
  refine ⟨⟨?_, ?_⟩, ?_, ?_⟩
  · simp [approveLeave, hfind]
  · intro l hl hid
    simp only [approveLeave, hfind] at hl
    simp only [Bool.not_true, Bool.false_eq_true, if_false] at hl
    rcases List.mem_map.mp hl with ⟨a, _ha, rfl⟩
    by_cases hb : a.id == leaveId
    · simp [hb]
    · simp only [hb, if_false] at hid ⊢
      exact absurd hid (by simpa using hb)
  · simp [deleteLeave, hfind]
  · intro st
    cases st <;> simp [leaveActionButtons]

/-- C10 witness: the amended theorem applied to the pending application. -/
theorem C10_leave_engine_status_blind_witness :
    (approveLeave [pendingLeave] "L1" true "teacher@example.com" true 7).1 = .done ∧
    (deleteLeave [pendingLeave] "L1" true true).1 = .done := by
  have h := C10_leave_engine_status_blind [pendingLeave] "L1" pendingLeave
    "teacher@example.com" 7 (by decide)
  exact ⟨h.1.1, by rw [h.2.1]⟩
